import Mathlib

/-!
Verification development for the `mail-parser-reply` library
(`mailparser_reply/parser.py`, `mailparser_reply/constants.py`).

Text is modelled as `List Char` (Python `str` indexing is by code point,
as is `List Char` indexing).  Regex-driven parts of the code are embedded
as follows: the segmentation scanner `EmailMessage.read` is modelled as a
function of the list of header-regex matches (position and matched text,
as produced by `re.finditer`), and the per-fragment signature/disclaimer
pass `_process_signatures_disclaimers` as a function parameter `sd`.
Pattern-string assembly (`get_header_regex` and friends) is modelled on
the string level, and individual regex constructs that claims depend on
(the `(?<!\A)^` guard of the signature lead-in branch, the
`([^\n])(\n{2,} ?[_-]{32,})` substitution of `_normalize_text`) are
embedded directly.
-/

namespace MailParser

/-! ## Python string primitives -/

/-- Python whitespace (the set stripped by `str.strip()` and matched by `\s`). -/
def isPySpace (c : Char) : Bool :=
  c == ' ' || c == '\t' || c == '\n' || c == '\r' || c == '\x0b' || c == '\x0c' ||
  c == '\x1c' || c == '\x1d' || c == '\x1e' || c == '\x1f' || c == '\x85' || c == '\xa0' ||
  c == '\u1680' || ('\u2000' ≤ c && c ≤ '\u200a') || c == '\u2028' || c == '\u2029' ||
  c == '\u202f' || c == '\u205f' || c == '\u3000'

/-- Python `str.strip()`: drop leading and trailing whitespace. -/
def pyStrip (l : List Char) : List Char :=
  ((l.dropWhile isPySpace).reverse.dropWhile isPySpace).reverse

/-- `hasInk l` holds when `l` contains at least one non-whitespace character. -/
def hasInk (l : List Char) : Bool := l.any (fun c => !(isPySpace c))

/-- Concatenation of a list of character lists. -/
def joinAll : List (List Char) → List Char
  | [] => []
  | l :: ls => l ++ joinAll ls

/-- Python `str.replace(old, '')`: remove every (leftmost, non-overlapping)
occurrence of `old`.  `''.replace('', '')` leaves the text unchanged. -/
def removeAll (old : List Char) : List Char → List Char
  | [] => []
  | c :: rest =>
    if old.isEmpty then c :: rest
    else if (c :: rest).take old.length == old then
      removeAll old ((c :: rest).drop old.length)
    else c :: removeAll old rest
termination_by l => l.length
decreasing_by
  · simp only [List.length_drop, List.length_cons]
    have hol : 1 ≤ old.length := by
      cases old with
      | nil => simp_all
      | cons a as => simp
    omega
  · simp

/-! ## Lemmas about `pyStrip` -/

theorem pyStrip_ne_nil_of_hasInk (l : List Char) (h : hasInk l = true) :
    pyStrip l ≠ [] := by
  intro hnil
  unfold pyStrip at hnil
  rw [List.reverse_eq_nil_iff, List.dropWhile_eq_nil_iff] at hnil
  obtain ⟨c, hc, hcs⟩ := List.any_eq_true.mp h
  have hmem : ∀ x ∈ l.dropWhile isPySpace, isPySpace x = true := by
    intro x hx
    exact hnil x (List.mem_reverse.mpr hx)
  have : isPySpace c = true := by
    have hc' : c ∈ l.takeWhile isPySpace ++ l.dropWhile isPySpace := by
      rw [List.takeWhile_append_dropWhile]; exact hc
    rcases List.mem_append.mp hc' with h1 | h2
    · exact List.mem_takeWhile_imp h1
    · exact hmem c h2
  simp [this] at hcs

theorem hasInk_of_append_left (a b : List Char) (h : hasInk a = true) :
    hasInk (a ++ b) = true := by
  unfold hasInk at *
  rw [List.any_append, h, Bool.true_or]

theorem pyStrip_nil : pyStrip [] = [] := rfl

/-! ## `EmailMessage._normalize_text`

The source performs, in order:
1. `text.replace("\r\n", "\n")`
2. `'\n'.join(line.strip() for line in text.split('\n'))`
3. `re.sub('([^\n])(\n{2,} ?[_-]{32,})', '\\1\n', text, re.MULTILINE)`
   where the fourth positional argument of `re.sub` is `count`, so
   `re.MULTILINE` (= 8) limits the substitution to 8 replacements, and the
   replacement drops the whole separator group `\2`.
-/

/-- Python `str.replace("\r\n", "\n")`. -/
def replaceCRLF : List Char → List Char
  | [] => []
  | '\r' :: '\n' :: rest => '\n' :: replaceCRLF rest
  | c :: rest => c :: replaceCRLF rest

/-- Python `str.split('\n')`. -/
def splitOnNl : List Char → List (List Char)
  | [] => [[]]
  | c :: rest =>
    if c == '\n' then [] :: splitOnNl rest
    else match splitOnNl rest with
      | l :: ls => (c :: l) :: ls
      | [] => [[c]]

/-- Python `'\n'.join(...)`. -/
def joinNl : List (List Char) → List Char
  | [] => []
  | [l] => l
  | l :: ls => l ++ '\n' :: joinNl ls

/-- The greedy ` ?` of the substitution pattern: consume one leading
space if present. -/
def dropOptSpace : List Char → List Char
  | ' ' :: t => t
  | l => l

/-- Attempt to match `\n{2,} ?[_-]{32,}` (the part of the substitution
pattern following the `[^\n]` character); on success return the suffix
after the match. -/
def sepMatchTail (rest : List Char) : Option (List Char) :=
  if (rest.takeWhile (fun c => c == '\n')).length < 2 then none
  else
    let r2 := dropOptSpace (rest.dropWhile (fun c => c == '\n'))
    let n2 := (r2.takeWhile (fun c => c == '_' || c == '-')).length
    if n2 < 32 then none else some (r2.drop n2)

/-- The `re.sub` scan: at each non-`'\n'` character try to match the
separator tail; on a match, emit the character plus a single `'\n'`
(the replacement `\1\n`), drop the matched span, and decrement the
remaining-replacement budget `k` (Python `count`).  The scan consumes at
least one character per step, so `fuel = length + 1` makes the fuel
parameter inert. -/
def subSepFuel : Nat → List Char → Nat → List Char
  | 0, l, _ => l
  | _ + 1, l, 0 => l
  | _ + 1, [], _ + 1 => []
  | fuel + 1, c :: rest, k' + 1 =>
    if c == '\n' then c :: subSepFuel fuel rest (k' + 1)
    else match sepMatchTail rest with
      | some r3 => c :: '\n' :: subSepFuel fuel r3 k'
      | none => c :: subSepFuel fuel rest (k' + 1)

/-- `EmailMessage._normalize_text`. -/
def normalizeText (t : List Char) : List Char :=
  let stripped := joinNl ((splitOnNl (replaceCRLF t)).map pyStrip)
  subSepFuel (stripped.length + 1) stripped 8

/-! ## `EmailReply` -/

/-- An email reply fragment (dataclass `EmailReply`), with the field
normalization of `EmailReply.__post_init__` already applied by `mkReply`. -/
structure EmailReply where
  content : List Char
  headers : List Char
  signatures : List Char
  disclaimers : List (List Char)
deriving DecidableEq, Repr

/-- `EmailReply(...)` construction followed by `__post_init__`
(strip `content`, `headers`, `signatures`, and each disclaimer). -/
def mkReply (headers content signatures : List Char)
    (disclaimers : List (List Char)) : EmailReply :=
  { content := pyStrip content
    headers := pyStrip headers
    signatures := pyStrip signatures
    disclaimers := disclaimers.map pyStrip }

/-- `EmailReply.body`: disclaimers removed, then the signature
(if non-empty), then the headers (`headers or ''`), then stripped.
Python `str.replace(span, '')` removes every occurrence. -/
def EmailReply.body (r : EmailReply) : List Char :=
  let b1 := r.disclaimers.foldl (fun b d => removeAll d b) r.content
  let b2 := if r.signatures ≠ [] then removeAll r.signatures b1 else b1
  pyStrip (removeAll r.headers b2)

/-- `EmailReply.full_body`: only the headers removed, then stripped. -/
def EmailReply.full_body (r : EmailReply) : List Char :=
  pyStrip (removeAll r.headers r.content)

/-! ## The segmentation scanner `EmailMessage.read`

`re.finditer(header_regex, text)` is abstracted as a list of matches,
each a start position plus the matched text (`match.start()`,
`match.group(0)`).  `_process_signatures_disclaimers` is abstracted as a
function `sd` from a content slice to its `(disclaimers, signatures)`
pair. -/

structure HeaderMatch where
  start : Nat
  mtext : List Char
deriving DecidableEq, Repr

/-- Build the `EmailReply` for one closed fragment: run
`_process_signatures_disclaimers` (`sd`) on the content slice and
construct the reply. -/
def closeReply (sd : List Char → List (List Char) × List Char)
    (prev content : List Char) : EmailReply :=
  mkReply prev content (sd content).2 (sd content).1

/-- One step per header match: close the fragment
`text[current_position:position]` under the pending header, append it if
its (stripped) content is non-empty, then advance.  After the last match,
close the final fragment `text[current_position:]` and append it if
non-empty or if nothing has been emitted yet. -/
def readLoop (text : List Char) (sd : List Char → List (List Char) × List Char) :
    List HeaderMatch → Nat → List Char → List EmailReply → List EmailReply
  | [], cur, prev, acc =>
    let r := closeReply sd prev (text.drop cur)
    if r.content ≠ [] ∨ acc = [] then acc ++ [r] else acc
  | m :: ms, cur, prev, acc =>
    let r := closeReply sd prev ((text.take m.start).drop cur)
    readLoop text sd ms m.start m.mtext (if r.content = [] then acc else acc ++ [r])

/-- `EmailMessage.read` on already-normalized text: scan from position 0
with empty pending header and empty `self.replies`. -/
def readModel (text : List Char) (ms : List HeaderMatch)
    (sd : List Char → List (List Char) × List Char) : List EmailReply :=
  readLoop text sd ms 0 [] []

/-- `EmailMessage.latest_reply`. -/
def latest_reply (replies : List EmailReply) : Option (List Char) :=
  match replies with
  | [] => none
  | r :: _ => some r.content

/-- The facts `re.finditer` guarantees about its result on `text`,
starting the scan at position `cur`: match starts are reached in
increasing order, every match continues past the end of the previous one,
the recorded text is exactly the slice of `text` at the match span, and —
true of every alternative of the compiled header regex — the matched text
contains a non-whitespace character. -/
def Chained (text : List Char) : Nat → List HeaderMatch → Bool
  | cur, [] => decide (cur ≤ text.length)
  | cur, m :: ms =>
    decide (cur ≤ m.start) && hasInk m.mtext &&
    ((text.drop m.start).take m.mtext.length == m.mtext) &&
    Chained text (m.start + m.mtext.length) ms

/-! ## The language pattern registry (`constants.py`)

Pattern strings are transcribed as Python string *values* (raw strings
keep their backslash escape sequences literally; non-raw `\uXXXX` escapes
became the actual characters).  Literal braces of regex quantifiers are
written with the `\x7b` / `\x7d` character escapes. -/

/-- A registry field is either a single pattern or an ordered list of
alternatives. -/
inductive PatternVal where
  | single (s : String)
  | plist (l : List String)
deriving DecidableEq, Repr

/-- `MAIL_LANGUAGE_DEFAULT`. -/
def MAIL_LANGUAGE_DEFAULT : String := "en"

/-- `QUOTED_MATCH_INCLUDE`. -/
def QUOTED_MATCH_INCLUDE : String := "(?:> ?)*"

/-- `GENERIC_MAIL_SEPARATOR`. -/
def GENERIC_MAIL_SEPARATOR : String := "^-\x7b5,\x7d ?Original Message ?-\x7b5,\x7d$"

/-- `DEFAULT_SIGNATURE_REGEX`. -/
def DEFAULT_SIGNATURE_REGEX : String :=
  "\\s*^" ++ QUOTED_MATCH_INCLUDE ++ "(?:[-_]\x7b2\x7d\\n|- ?\\w).*"

/-- `SINGLE_SPACE_VARIATIONS`. -/
def SINGLE_SPACE_VARIATIONS : String := "[ \\u200b\\xA0\\t]"

/-- `OPTIONAL_LINEBREAK`. -/
def OPTIONAL_LINEBREAK : String :=
  "[,()]?" ++ SINGLE_SPACE_VARIATIONS ++ "\x7b0,3\x7d[\\n\\r]?" ++
    SINGLE_SPACE_VARIATIONS ++ "\x7b0,3\x7d[,()]?"

/-- `SENTENCE_START`. -/
def SENTENCE_START : String :=
  "(?:[\\n\\r.!?]|^)" ++ SINGLE_SPACE_VARIATIONS ++ "\x7b0,3\x7d"

/-- `MAIL_LANGUAGES`: the per-language pattern table, in source order. -/
def MAIL_LANGUAGES : List (String × List (String × PatternVal)) := [
  ("en", [
    ("wrote_header", .single ("^(?!On[.\\s]*On\\s(.+?\\s?.+?)\\swrote:)(" ++
      QUOTED_MATCH_INCLUDE ++ "On\\s(?:.+?\\s?.+?)\\s?wrote:)$")),
    ("from_header", .single ("((?:(?:^|\\n|\\n" ++ QUOTED_MATCH_INCLUDE ++
      ")[* ]*(?:From|Sent|To|Subject|Date|Cc|Organization):[ *]*(?:\\s\x7b,2\x7d).*)\x7b2,\x7d(?:\\n.*)\x7b,1\x7d)")),
    ("disclaimers", .plist ["CAUTION:", "Disclaimer:", "Warning:", "Confidential:",
      "CONFIDENTIALITY:",
      "(?:Privileged|Confidential|Private|Sensitive|Important) (?:Notice|Note|Information):",
      "[\\* ]*Disclaimer[\\* ]*"]),
    ("signatures", .plist ["Best regards", "Kind Regards", "Thanks,", "Thank you,",
      "Best,", "All the best", "regards,"]),
    ("sent_from", .single "Sent from my|Get Outlook for")
  ]),
  ("de", [
    ("wrote_header", .single ("^(?!Am.*Am\\s.+?schrieb.*:)(" ++
      QUOTED_MATCH_INCLUDE ++ "Am\\s(?:.+?\\s?)schrieb\\s(?:.+?\\s?.+?):)$")),
    ("from_header", .single ("((?:(?:^|\\n|\\n" ++ QUOTED_MATCH_INCLUDE ++
      ")[* ]*(?:Von|Gesendet|An|Betreff|Datum|Cc|Organisation):[ *]*(?:\\s\x7b,2\x7d).*)\x7b2,\x7d(?:\\n.*)\x7b,1\x7d)")),
    ("disclaimers", .plist ["(?:Wichtiger )?Hinweis:", "Achtung:"]),
    ("signatures", .plist ["Mit freundlichen Gr\\u00fc\\u00DFen",
      "Mit freundlichen Gr\\u00fc\\u00DFen / (?:Best|Kind) regards,",
      "(?:(?:Beste(?:n)?|Liebe|Viele) )?(?:Gr(?:\\u00fc|ue)(?:\\u00DF|ss)(?:e)?|Gru\\u00DF|Gruss)"]),
    ("sent_from", .single "Gesendet von")
  ]),
  ("cs", [
    ("wrote_header", .single ("^(?!Dne[.\\s]*Dne\\s(.+?\\s?.+?)\\snapsal\\(a\\):)(" ++
      QUOTED_MATCH_INCLUDE ++ "Dne\\s(?:.+?\\s?.+?)\\s?napsal\\(a\\):)$")),
    ("from_header", .single ("((?:(?:^|\\n|\\n" ++ QUOTED_MATCH_INCLUDE ++
      ")[* ]*(?:Od|Odesláno|Komu|Předmět|Datum|Kopie):[ *]*(?:\\s\x7b,2\x7d).*)\x7b2,\x7d(?:\\n.*)\x7b,1\x7d)")),
    ("disclaimers", .plist ["Upozornění:", "Důvěrné:", "Varování:"]),
    ("signatures", .plist ["S pozdravem,", "S úctou,", "Děkuji,", "Děkujeme,",
      "S přáním hezkého dne,"]),
    ("sent_from", .single "Odesláno z mého.*")
  ]),
  ("es", [
    ("wrote_header", .single ("^(?!El\\s.+\\s escribió:)(" ++
      QUOTED_MATCH_INCLUDE ++ "El\\s.+\\s escribió:)$")),
    ("from_header", .single ("((?:(?:^|\\n|\\n" ++ QUOTED_MATCH_INCLUDE ++
      ")[* ]*(?:De|Enviado|Para|Asunto|Fecha|CC|Organización):[ *]*(?:\\s\x7b,2\x7d).*)\x7b2,\x7d(?:\\n.*)\x7b,1\x7d)")),
    ("disclaimers", .plist ["Aviso:", "Confidencialidad:", "Advertencia:",
      "Descargo de responsabilidad:"]),
    ("signatures", .plist ["Saludos,", "Atentamente,", "Gracias,", "Un saludo,",
      "Cordialmente,", "Muchas gracias,"]),
    ("sent_from", .single "Enviado desde mi.*")
  ]),
  ("fr", [
    ("wrote_header", .single ("(?!Le.*Le\\s.+?a \\u00e9crit[a-zA-Z0-9.:;<>()&@ -]*:)(" ++
      QUOTED_MATCH_INCLUDE ++ "Le\\s(.+?)a \\u00e9crit[a-zA-Z0-9.:;<>()&@ -]*:)")),
    ("from_header", .single ("((?:(?:^|\\n|\\n" ++ QUOTED_MATCH_INCLUDE ++
      ")[* ]*(?:De |Envoy\\u00e9 |\\u00C0 |Objet |  |Cc ):[ *]*(?:\\s\x7b,2\x7d).*)\x7b2,\x7d(?:\\n.*)\x7b,1\x7d)")),
    ("signatures", .plist ["cordialement", "salutations",
      "bonne r[\\u00e9e]ception", "bonne journ[\\u00e9e]e"]),
    ("sent_from", .single "Envoy\\u00e9 depuis")
  ]),
  ("it", [
    ("wrote_header", .single ("^(?!Il[.\\s]*Il\\s(.+?\\s?.+?)\\sha scritto:)(" ++
      QUOTED_MATCH_INCLUDE ++ "Il\\s(?:.+?\\s?.+?)\\s?ha scritto:)$")),
    ("from_header", .single ("((?:(?:^|\\n|\\n" ++ QUOTED_MATCH_INCLUDE ++
      ")[* ]*(?:Da|Inviato|A|Oggetto|Data|Cc):[ *]*(?:\\s\x7b,2\x7d).*)\x7b2,\x7d(?:\\n.*)\x7b,1\x7d)")),
    ("signatures", .plist ["Cordiali saluti"]),
    ("sent_from", .single "Inviato da")
  ]),
  ("ja", [
    ("wrote_header", .single ("^(?!.*\\d\x7b4\x7d年\\d\x7b1,2\x7d月\\d\x7b1,2\x7d日\\(.\\) \\d\x7b1,2\x7d:\\d\x7b2\x7d.+? <.+?>:.*\\d\x7b4\x7d年\\d\x7b1,2\x7d月\\d\x7b1,2\x7d日\\(.\\) \\d\x7b1,2\x7d:\\d\x7b2\x7d.+? <.+?>:)(" ++
      QUOTED_MATCH_INCLUDE ++ "\\d\x7b4\x7d年\\d\x7b1,2\x7d月\\d\x7b1,2\x7d日\\(.\\) \\d\x7b1,2\x7d:\\d\x7b2\x7d.+? <.+?>):$")),
    ("from_header", .single ("((?:(?:^|\\n|\\n" ++ QUOTED_MATCH_INCLUDE ++
      ")[* ]*(?:From|Sent|To|Subject|Date|Cc):[ *]*(?:\\s\x7b,2\x7d).*)\x7b2,\x7d(?:\\n.*)\x7b,1\x7d)")),
    ("disclaimers", .plist []),
    ("signatures", .plist []),
    ("sent_from", .single "")
  ]),
  ("ko", [
    ("wrote_header", .single ("^(?!.*\\d\x7b4\x7d년 \\d\x7b1,2\x7d월 \\d\x7b1,2\x7d일.*?님이 작성하였습니다:)(" ++
      QUOTED_MATCH_INCLUDE ++ "\\d\x7b4\x7d년 \\d\x7b1,2\x7d월 \\d\x7b1,2\x7d일 .*님이 작성하였습니다:)$")),
    ("from_header", .single ("((?:(?:^|\\n|\\n" ++ QUOTED_MATCH_INCLUDE ++
      ")[* ]*(?:보낸\\s?사람|보낸\\s?날짜|받는\\s?사람|제목|참조):[ *]*(?:\\s\x7b,2\x7d).*)\x7b2,\x7d(?:\\n.*)\x7b,1\x7d)")),
    ("disclaimers", .plist ["주의:", "면책 조항:", "비밀정보:"]),
    ("signatures", .plist ["감사합니다,", "안부 전합니다,", "좋은 하루 되세요,",
      "고맙습니다,", "감사합니다."]),
    ("sent_from", .single "내 .*에서 보냄")
  ]),
  ("nl", [
    ("wrote_header", .single ("^(?!Op[.\\s]*Op\\s(.+?\\s?.+?)\\sschreef:)(" ++
      QUOTED_MATCH_INCLUDE ++ "Op\\s(?:.+?\\s?.+?)\\s?schreef:)$")),
    ("from_header", .single ("((?:(?:^|\\n|\\n" ++ QUOTED_MATCH_INCLUDE ++
      ")[* ]*(?:Van|Verzonden|Aan|Onderwerp|Datum|Cc):[ *]*(?:\\s\x7b,2\x7d).*)\x7b2,\x7d(?:\\n.*)\x7b,1\x7d)")),
    ("disclaimers", .plist ["Disclaimer:", "Waarschuwing:"]),
    ("signatures", .plist ["Met vriendelijke groet", "Hartelijke groeten",
      "Bedankt,", "Dank u,"]),
    ("sent_from", .single "Verzonden vanaf mijn")
  ]),
  ("pl", [
    ("wrote_header", .single ("^(?!Dnia[.\\s]*Dnia\\s(.+?\\s?.+?)\\s(?:nadesłał|napisał\\(a\\)):)(" ++
      QUOTED_MATCH_INCLUDE ++ "Dnia\\s(?:.+?\\s?.+?)\\s?(?:nadesłał|napisał\\(a\\)):)$")),
    ("from_header", .single ("((?:(?:^|\\n|\\n" ++ QUOTED_MATCH_INCLUDE ++
      ")[* ]*(?:Od|Wysłano|Do|Temat|Data|DW):[ *]*(?:\\s\x7b,2\x7d).*)\x7b1,\x7d(?:\\n.*)\x7b,1\x7d)")),
    ("disclaimers", .plist ["Uwaga:"]),
    ("signatures", .plist ["Z poważaniem", "Z powazaniem", "Pozdrawiam",
      "W przypadku niejasności, proszę o kontakt."]),
    ("sent_from", .single "Wysłano z")
  ]),
  ("sv", [
    ("wrote_header", .single ("^(?!Den[.\\s]*Den\\s(.+?\\s?.+?)\\skrev:)(" ++
      QUOTED_MATCH_INCLUDE ++ "(?:Den|[Mm]ån|[Tt]is|[Oo]ns|[Tt]or|[Ff]re|[Ll]ör|[Ss]ön|(?:[0-9]+\\s+(?:jan|feb|mar|apr|maj|jun|jul|aug|sep|okt|nov|dec)))[^\\n]*skrev\\s(?:.+?\\s?.+?):)$")),
    ("disclaimers", .plist ["Varning:", "Observera:"]),
    ("signatures", .plist ["Med vänliga hälsningar", "Vänliga hälsningar",
      "Hälsningar", "Bästa hälsningar", "Mvh", "/\\w+"]),
    ("sent_from", .single "Skickat från min"),
    ("from_header", .single ("((?:(?:^|\\n|\\n" ++ QUOTED_MATCH_INCLUDE ++
      ")[* ]*(?:Från|Skickat|Till|Ämne|Datum|Kopia):[ *]*(?:\\s\x7b,2\x7d).*)\x7b2,\x7d(?:\\n.*)\x7b,1\x7d)"))
  ]),
  ("zh", [
    ("wrote_header", .single ("^(?!.*\\d\x7b4\x7d年\\d\x7b1,2\x7d月\\d\x7b1,2\x7d日.*?写道：)(" ++
      QUOTED_MATCH_INCLUDE ++ "\\d\x7b4\x7d年\\d\x7b1,2\x7d月\\d\x7b1,2\x7d日.*?写道：)$")),
    ("from_header", .single ("((?:(?:^|\\n|\\n" ++ QUOTED_MATCH_INCLUDE ++
      ")[* ]*(?:发件人|发送时间|收件人|主题|抄送|组织):[ *]*(?:\\s\x7b,2\x7d).*)\x7b2,\x7d(?:\\n.*)\x7b,1\x7d)")),
    ("disclaimers", .plist ["免责声明：", "注意：", "重要信息："]),
    ("signatures", .plist ["此致，", "敬礼，", "谢谢，", "谢谢您的关注，", "祝好，"]),
    ("sent_from", .single "从我的.*发送")
  ]),
  ("david", [
    ("from_header", .single ("((?:^ *" ++ QUOTED_MATCH_INCLUDE ++
      "\\[?Original Message processed by david.+?$\\n\x7b,4\x7d)(?:.*\\n?)\x7b,2\x7d(?:(?:^|\\n|\\n" ++
      QUOTED_MATCH_INCLUDE ++ ")[* ]*(?:Von|An|Cc)(?:\\s\x7b,2\x7d).*)\x7b2,\x7d)"))
  ])
]

/-- `lang in MAIL_LANGUAGES and MAIL_LANGUAGES[lang]`. -/
def lookupLang (lang : String) : Option (List (String × PatternVal)) :=
  (MAIL_LANGUAGES.find? (fun e => e.1 == lang)).map (·.2)

/-- `regex_key in entry and entry[regex_key]`. -/
def lookupKey (key : String) (entry : List (String × PatternVal)) : Option PatternVal :=
  (entry.find? (fun e => e.1 == key)).map (·.2)

/-- `flat_list`: `'|'.join(chain(x)) if isinstance(x, list) else x`. -/
def flatList : PatternVal → String
  | .single s => s
  | .plist l => String.intercalate "|" l

/-- The collection loop of `_get_language_regex_patterns`: for each
language in order, if it is in the registry and defines `regexKey`,
collect the flattened pattern. -/
def collectPatterns (languages : List String) (regexKey : String) : List String :=
  languages.filterMap (fun lang =>
    ((lookupLang lang).bind (fun e => lookupKey regexKey e)).map flatList)

/-- `_get_language_regex_patterns(languages, regex_key, default_language)`. -/
def getLanguageRegexPatterns (languages : List String) (regexKey : String)
    (defaultLanguage : String) : List String :=
  let patterns := collectPatterns languages regexKey
  let patterns :=
    if patterns.isEmpty && !(languages.contains defaultLanguage) then
      patterns ++ (match (lookupLang defaultLanguage).bind (fun e => lookupKey regexKey e) with
        | some v => [flatList v]
        | none => [])
    else patterns
  patterns.filter (fun p => p != "")

/-- Modelled from the spec: `resolve_field(active_languages,
default_language, field)` as its contract is worded — collect the pattern
of each active language defining the field, in order; fall back to the
default language's pattern exactly when no active language defines the
field and the default language is not itself active; otherwise empty.
(Stated for comparison with `getLanguageRegexPatterns`.) -/
def resolveFieldSpec (activeLanguages : List String) (defaultLanguage : String)
    (field : String) : List String :=
  let collected := collectPatterns activeLanguages field
  if collected.isEmpty then
    if !(activeLanguages.contains defaultLanguage) then
      match (lookupLang defaultLanguage).bind (fun e => lookupKey field e) with
      | some v => [flatList v]
      | none => []
    else []
  else collected

/-! ## Pattern-string assembly (`get_*_regex`)

The `re.compile` calls are modelled at the level of the pattern strings
they assemble; the `lru_cache` decorators memoize what are (as below)
pure functions of `(languages, default_language)`. -/

/-- The `ALLOW_ANY_EXTENSION` local of `get_disclaimers_regex`. -/
def ALLOW_ANY_EXTENSION : String :=
  "[a-zA-Z0-9\\u00C0-\\u017F:;.,?!<>()@&/\\\x27\\\x22\\\u201c\\\u201d \\u200b\\xA0\\t\\-]*"

/-- Python `str.replace(' ', SINGLE_SPACE_VARIATIONS)`. -/
def replaceSpaceChars (s : String) : String :=
  String.mk (s.data.foldr
    (fun c acc => if c == ' ' then SINGLE_SPACE_VARIATIONS.data ++ acc else c :: acc) [])

/-- The pattern string compiled by `get_disclaimers_regex`. -/
def buildDisclaimersPattern (languages : List String) (defaultLanguage : String) : String :=
  let disclaimers := getLanguageRegexPatterns languages "disclaimers" defaultLanguage
  let disclaimersPattern := replaceSpaceChars (String.intercalate "|" disclaimers)
  SENTENCE_START ++ "(?:" ++ disclaimersPattern ++ ")(?:" ++ OPTIONAL_LINEBREAK ++
    ALLOW_ANY_EXTENSION ++ "?(?:mail)" ++ ALLOW_ANY_EXTENSION ++ ")\x7b1,2\x7d"

/-- The pattern string compiled by `get_header_regex`. -/
def buildHeaderPattern (languages : List String) (defaultLanguage : String) : String :=
  let wroteHeaders := getLanguageRegexPatterns languages "wrote_header" defaultLanguage
  let fromHeaders := getLanguageRegexPatterns languages "from_header" defaultLanguage
  let langHeaders := wroteHeaders ++ fromHeaders
  let prefixedLangHeaders := langHeaders.map (fun h => "(?:^[\\s*>-]*)(" ++ h ++ ")")
  let allHeaders := prefixedLangHeaders ++ ["(" ++ GENERIC_MAIL_SEPARATOR ++ ")"]
  String.intercalate "|" (allHeaders.filter (fun s => s != ""))

/-- The pattern string compiled by `get_signature_regex`. -/
def buildSignaturePattern (languages : List String) (defaultLanguage : String) : String :=
  let sentFrom := String.intercalate "|" (getLanguageRegexPatterns languages "sent_from" defaultLanguage)
  let signatures := String.intercalate "|" (getLanguageRegexPatterns languages "signatures" defaultLanguage)
  "((" ++ DEFAULT_SIGNATURE_REGEX ++ "|" ++
    "\\s*^" ++ QUOTED_MATCH_INCLUDE ++ "(?:" ++ sentFrom ++
    ") ?(?:(?:[\\w.<>:// ]+)|(?:\\w+ )\x7b1,3\x7d)$|" ++
    "(?<!\\A)^" ++ QUOTED_MATCH_INCLUDE ++ "(?:" ++ signatures ++ "))(.|\\s)*)"

/-! ## Language-set configuration -/

/-- The language identifiers present in the registry. -/
def registryKeys : List String := MAIL_LANGUAGES.map (·.1)

/-- Python `language.lower().strip()` (ASCII case mapping). -/
def pyLowerStrip (s : String) : String :=
  String.mk (pyStrip (s.data.map Char.toLower))

/-- `EmailReplyParser.__post_init__`: lower/strip the requested languages,
keep only registry members, and fall back to `[default_language]` when
nothing is left. -/
def parserLanguages (languages : List String) (defaultLanguage : String) : List String :=
  let ls := (languages.map pyLowerStrip).filter (fun l => registryKeys.contains l)
  if ls.isEmpty then [defaultLanguage] else ls

/-- The language-list part of `EmailMessage.__post_init__`:
`if include_english and 'en' not in languages: languages.append('en')`. -/
def emailMessageLanguages (languages : List String) (includeEnglish : Bool) : List String :=
  if includeEnglish && !(languages.contains "en") then languages ++ ["en"] else languages

/-! ## The signature lead-in branch of `get_signature_regex`

The third alternative of the compiled signature regex is
`(?<!\A)^(?:> ?)*(?:<signatures>)` (with `re.MULTILINE | re.IGNORECASE`).
For the active set `("en",)` every alternative of `<signatures>` is a
string literal, so matching at a position `p` means: `p` is not the start
of the fragment (`(?<!\A)`), `p` is at a line start (`^`), and after
greedily consuming quote markers some signature literal is a
case-insensitive prefix of the remainder. -/

/-- The `signatures` list of the `en` registry entry. -/
def enSignatureLeads : List String :=
  match (lookupLang "en").bind (fun e => lookupKey "signatures" e) with
  | some (PatternVal.plist l) => l
  | _ => []

/-- Case-insensitive literal prefix test (`re.IGNORECASE` on ASCII literals). -/
def isPrefixCI : List Char → List Char → Bool
  | [], _ => true
  | _ :: _, [] => false
  | p :: ps, c :: cs => (p.toLower == c.toLower) && isPrefixCI ps cs

/-- Greedy `(?:> ?)*` (no signature literal starts with `>` or a space,
so the greedy consumption is exact). -/
def dropQuoteMarkers : List Char → List Char
  | '>' :: ' ' :: rest => dropQuoteMarkers rest
  | '>' :: rest => dropQuoteMarkers rest
  | l => l

/-- `^` under `re.MULTILINE`: position 0 or just after a newline. -/
def isLineStart (text : List Char) (p : Nat) : Bool :=
  p == 0 || ((text.take p).getLast? == some '\n')

/-- Whether the signature lead-in alternative
`(?<!\A)^(?:> ?)*(?:<en signatures>)` matches at position `p` of `content`. -/
def sigLeadMatchAt (content : List Char) (p : Nat) : Bool :=
  (p != 0) && isLineStart content p &&
    enSignatureLeads.any (fun s => isPrefixCI s.data (dropQuoteMarkers (content.drop p)))

/-! ## Structural characterization of `readModel`

Under `Chained`, the scan closes one fragment per match plus a final one,
and drops exactly the fragments whose stripped content is empty — which,
because every later fragment begins with its own header match (the cursor
advances to `match.start()`), can only be the leading fragment. -/

theorem chained_nil_iff (text : List Char) (cur : Nat) :
    Chained text cur [] = true ↔ cur ≤ text.length := by
  simp [Chained]

theorem chained_cons_iff (text : List Char) (cur : Nat) (m : HeaderMatch)
    (ms : List HeaderMatch) :
    Chained text cur (m :: ms) = true ↔
      cur ≤ m.start ∧ hasInk m.mtext = true ∧
      (text.drop m.start).take m.mtext.length = m.mtext ∧
      Chained text (m.start + m.mtext.length) ms = true := by
  simp [Chained, Bool.and_eq_true, decide_eq_true_eq, beq_iff_eq, and_assoc]

theorem chained_mono (text : List Char) (ms : List HeaderMatch) (cur cur' : Nat)
    (h : Chained text cur ms = true) (hle : cur' ≤ cur) :
    Chained text cur' ms = true := by
  cases ms with
  | nil => rw [chained_nil_iff] at h ⊢; omega
  | cons m ms =>
    rw [chained_cons_iff] at h ⊢
    exact ⟨le_trans hle h.1, h.2⟩

theorem drop_eq_mtext_append (text : List Char) (m : HeaderMatch)
    (h : (text.drop m.start).take m.mtext.length = m.mtext) :
    text.drop m.start = m.mtext ++ (text.drop m.start).drop m.mtext.length := by
  conv_lhs => rw [← List.take_append_drop m.mtext.length (text.drop m.start)]
  rw [h]

theorem start_le_length (text : List Char) (m : HeaderMatch)
    (h : (text.drop m.start).take m.mtext.length = m.mtext)
    (hink : hasInk m.mtext = true) : m.start ≤ text.length := by
  by_contra hlt
  push_neg at hlt
  have hdrop : text.drop m.start = [] := List.drop_eq_nil_of_le (le_of_lt hlt)
  rw [hdrop] at h
  have hmt : m.mtext = [] := by simpa using h.symm
  rw [hmt] at hink
  simp [hasInk] at hink

theorem hasInk_drop_of_match (text : List Char) (m : HeaderMatch)
    (h : (text.drop m.start).take m.mtext.length = m.mtext)
    (hink : hasInk m.mtext = true) : hasInk (text.drop m.start) = true := by
  rw [drop_eq_mtext_append text m h]
  exact hasInk_of_append_left _ _ hink

theorem hasInk_slice_of_match (text : List Char) (m : HeaderMatch) (e : Nat)
    (h : (text.drop m.start).take m.mtext.length = m.mtext)
    (hink : hasInk m.mtext = true) (he : m.start + m.mtext.length ≤ e) :
    hasInk ((text.take e).drop m.start) = true := by
  rw [List.drop_take]
  rw [drop_eq_mtext_append text m h]
  rw [List.take_append_eq_append_take]
  rw [List.take_of_length_le (by omega)]
  exact hasInk_of_append_left _ _ hink

theorem slice_append_drop (text : List Char) (cur p : Nat)
    (h1 : cur ≤ p) (h2 : p ≤ text.length) :
    (text.take p).drop cur ++ text.drop p = text.drop cur := by
  conv_rhs => rw [← List.take_append_drop p text]
  rw [List.drop_append_eq_append_drop]
  have hlen : (text.take p).length = p := by
    rw [List.length_take]; omega
  rw [hlen]
  have hzero : cur - p = 0 := by omega
  rw [hzero, List.drop_zero]

/-- The fragment slices the scan closes: `text[cursor:position]` per
match, and the final `text[cursor:]`. -/
def specSlices (text : List Char) : List HeaderMatch → Nat → List (List Char)
  | [], cur => [text.drop cur]
  | m :: ms, cur => (text.take m.start).drop cur :: specSlices text ms m.start

/-- The replies produced from the second fragment on: each is introduced
by a header match and runs to the next match (or the end of the text). -/
def tailReplies (text : List Char) (sd : List Char → List (List Char) × List Char) :
    HeaderMatch → List HeaderMatch → List EmailReply
  | m, [] => [closeReply sd m.mtext (text.drop m.start)]
  | m, m2 :: ms =>
    closeReply sd m.mtext ((text.take m2.start).drop m.start) :: tailReplies text sd m2 ms

theorem readLoop_cons_eq (text : List Char)
    (sd : List Char → List (List Char) × List Char) :
    ∀ (ms : List HeaderMatch) (m : HeaderMatch) (cur : Nat)
      (prev : List Char) (acc : List EmailReply),
      Chained text cur (m :: ms) = true →
      readLoop text sd (m :: ms) cur prev acc =
        acc ++
          (if pyStrip ((text.take m.start).drop cur) = [] then []
           else [closeReply sd prev ((text.take m.start).drop cur)]) ++
          tailReplies text sd m ms := by
  intro ms
  induction ms with
  | nil =>
    intro m cur prev acc h
    rw [chained_cons_iff] at h
    obtain ⟨hcur, hink, htake, _⟩ := h
    have hfinal : pyStrip (text.drop m.start) ≠ [] :=
      pyStrip_ne_nil_of_hasInk _ (hasInk_drop_of_match text m htake hink)
    simp only [readLoop, closeReply, mkReply]
    by_cases hempty : pyStrip ((text.take m.start).drop cur) = []
    · simp [tailReplies, closeReply, mkReply, hempty, hfinal]
    · simp [tailReplies, closeReply, mkReply, hempty, hfinal, List.append_assoc]
  | cons m2 ms ih =>
    intro m cur prev acc h
    rw [chained_cons_iff] at h
    obtain ⟨hcur, hink, htake, hrest⟩ := h
    have hstart2 : m.start + m.mtext.length ≤ m2.start :=
      ((chained_cons_iff text _ m2 ms).mp hrest).1
    have hrest' : Chained text m.start (m2 :: ms) = true :=
      chained_mono text _ _ m.start hrest (Nat.le_add_right _ _)
    have hslice2 : pyStrip ((text.take m2.start).drop m.start) ≠ [] :=
      pyStrip_ne_nil_of_hasInk _ (hasInk_slice_of_match text m m2.start htake hink hstart2)
    have step : readLoop text sd (m :: m2 :: ms) cur prev acc =
        readLoop text sd (m2 :: ms) m.start m.mtext
          (if pyStrip ((text.take m.start).drop cur) = [] then acc
           else acc ++ [closeReply sd prev ((text.take m.start).drop cur)]) := by
      simp only [readLoop, closeReply, mkReply]
    rw [step, ih m2 m.start m.mtext _ hrest']
    rw [if_neg hslice2]
    by_cases hempty : pyStrip ((text.take m.start).drop cur) = []
    · simp [hempty, tailReplies]
    · simp [hempty, tailReplies, List.append_assoc]

theorem readModel_nil_eq (text : List Char)
    (sd : List Char → List (List Char) × List Char) :
    readModel text [] sd = [closeReply sd [] text] := by
  simp [readModel, readLoop]

theorem readModel_cons_eq (text : List Char) (m : HeaderMatch) (ms' : List HeaderMatch)
    (sd : List Char → List (List Char) × List Char)
    (h : Chained text 0 (m :: ms') = true) :
    readModel text (m :: ms') sd =
      (if pyStrip (text.take m.start) = [] then []
       else [closeReply sd [] (text.take m.start)]) ++ tailReplies text sd m ms' := by
  have := readLoop_cons_eq text sd ms' m 0 [] [] h
  rw [readModel, this]
  simp [List.drop_zero]

theorem tailReplies_map_headers (text : List Char)
    (sd : List Char → List (List Char) × List Char) :
    ∀ (ms : List HeaderMatch) (m : HeaderMatch),
      (tailReplies text sd m ms).map (fun r => r.headers) =
        pyStrip m.mtext :: ms.map (fun x => pyStrip x.mtext) := by
  intro ms
  induction ms with
  | nil => intro m; simp [tailReplies, closeReply, mkReply]
  | cons m2 ms ih => intro m; simp [tailReplies, closeReply, mkReply, ih m2]

theorem tailReplies_map_content (text : List Char)
    (sd : List Char → List (List Char) × List Char) :
    ∀ (ms : List HeaderMatch) (m : HeaderMatch),
      (tailReplies text sd m ms).map (fun r => r.content) =
        (specSlices text ms m.start).map pyStrip := by
  intro ms
  induction ms with
  | nil => intro m; simp [tailReplies, closeReply, mkReply, specSlices]
  | cons m2 ms ih => intro m; simp [tailReplies, closeReply, mkReply, specSlices, ih m2]

theorem joinAll_specSlices (text : List Char) :
    ∀ (ms : List HeaderMatch) (cur : Nat), Chained text cur ms = true →
      joinAll (specSlices text ms cur) = text.drop cur := by
  intro ms
  induction ms with
  | nil =>
    intro cur _
    simp [specSlices, joinAll]
  | cons m ms ih =>
    intro cur h
    rw [chained_cons_iff] at h
    obtain ⟨hcur, hink, htake, hrest⟩ := h
    have hlen : m.start ≤ text.length := start_le_length text m htake hink
    have hrest' : Chained text m.start ms = true :=
      chained_mono text _ _ m.start hrest (Nat.le_add_right _ _)
    simp only [specSlices, joinAll]
    rw [ih m.start hrest']
    exact slice_append_drop text cur m.start hcur hlen

theorem specSlices_strip_ne_nil (text : List Char) :
    ∀ (ms : List HeaderMatch) (m : HeaderMatch) (cur : Nat),
      Chained text cur (m :: ms) = true →
      ∀ s ∈ specSlices text ms m.start, pyStrip s ≠ [] := by
  intro ms
  induction ms with
  | nil =>
    intro m cur h s hs
    rw [chained_cons_iff] at h
    obtain ⟨_, hink, htake, _⟩ := h
    simp only [specSlices, List.mem_singleton] at hs
    subst hs
    exact pyStrip_ne_nil_of_hasInk _ (hasInk_drop_of_match text m htake hink)
  | cons m2 ms ih =>
    intro m cur h s hs
    rw [chained_cons_iff] at h
    obtain ⟨hcur, hink, htake, hrest⟩ := h
    have hstart2 : m.start + m.mtext.length ≤ m2.start :=
      ((chained_cons_iff text _ m2 ms).mp hrest).1
    simp only [specSlices, List.mem_cons] at hs
    rcases hs with hs | hs
    · subst hs
      exact pyStrip_ne_nil_of_hasInk _
        (hasInk_slice_of_match text m m2.start htake hink hstart2)
    · exact ih m2 _ hrest s hs

theorem readLoop_ne_nil (text : List Char)
    (sd : List Char → List (List Char) × List Char) :
    ∀ (ms : List HeaderMatch) (cur : Nat) (prev : List Char) (acc : List EmailReply),
      readLoop text sd ms cur prev acc ≠ [] := by
  intro ms
  induction ms with
  | nil =>
    intro cur prev acc
    simp only [readLoop]
    by_cases hcond : (closeReply sd prev (text.drop cur)).content ≠ [] ∨ acc = []
    · simp [hcond]
    · rw [if_neg hcond]
      push_neg at hcond
      exact hcond.2
  | cons m ms ih =>
    intro cur prev acc
    simp only [readLoop]
    exact ih m.start m.mtext _

/-! ## Spec-side view definitions used in claim statements -/

/-- Modelled from the spec: `body` as described — content with every
matched disclaimer span removed, then the signature span removed, then
the header text removed, whitespace-trimmed. -/
def bodySpecView (r : EmailReply) : List Char :=
  pyStrip (removeAll r.headers (removeAll r.signatures
    (r.disclaimers.foldl (fun b d => removeAll d b) r.content)))

/-- Modelled from the spec: `full_body` as described — content with only
the header text removed, whitespace-trimmed. -/
def fullBodySpecView (r : EmailReply) : List Char :=
  pyStrip (removeAll r.headers r.content)

theorem removeAll_nil_old (t : List Char) : removeAll [] t = t := by
  cases t <;> simp [removeAll]

/-! ## Claim theorems -/

/-- Claim C1, as stated, is false: concatenating the `content` fields of
the replies does not reproduce the normalized text.  On
`"Hi\n-----Original Message-----\nFrom: x\nTo: y"` the header regex
matches the generic separator at position 3 and the From/To block at
position 30; `EmailReply.__post_init__` strips each content slice, so the
newlines at the slice boundaries are lost in the concatenation. -/
theorem c1_partition_counterexample :
    Chained ("Hi\n-----Original Message-----\nFrom: x\nTo: y".data) 0
        [⟨3, "-----Original Message-----".data⟩, ⟨30, "From: x\nTo: y".data⟩] = true ∧
    joinAll ((readModel ("Hi\n-----Original Message-----\nFrom: x\nTo: y".data)
        [⟨3, "-----Original Message-----".data⟩, ⟨30, "From: x\nTo: y".data⟩]
        (fun _ => ([], []))).map (fun r => r.content)) ≠
      "Hi\n-----Original Message-----\nFrom: x\nTo: y".data := by
  constructor
  · decide
  · decide

/-- Claim C1 (amended): the scan's raw slices `text[cursor:position]`
partition the normalized text exactly; each emitted reply's `content` is
the whitespace-stripped slice, and (beyond the sole-reply case) exactly
the slices that strip to empty are dropped. -/
theorem c1_partition_amended (text : List Char) (ms : List HeaderMatch)
    (sd : List Char → List (List Char) × List Char)
    (h : Chained text 0 ms = true) :
    joinAll (specSlices text ms 0) = text ∧
    (readModel text ms sd).map (fun r => r.content) =
      (match ms with
       | [] => [pyStrip text]
       | _ :: _ => ((specSlices text ms 0).map pyStrip).filter (fun s => !s.isEmpty)) := by
  constructor
  · simpa using joinAll_specSlices text ms 0 h
  · cases ms with
    | nil =>
      show (readModel text [] sd).map (fun r => r.content) = [pyStrip text]
      rw [readModel_nil_eq text sd]
      simp [closeReply, mkReply]
    | cons m ms' =>
      show (readModel text (m :: ms') sd).map (fun r => r.content) =
        ((specSlices text (m :: ms') 0).map pyStrip).filter (fun s => !s.isEmpty)
      rw [readModel_cons_eq text m ms' sd h]
      have hne : ∀ s ∈ specSlices text ms' m.start, pyStrip s ≠ [] :=
        specSlices_strip_ne_nil text ms' m 0 h
      have hfilter : ((specSlices text ms' m.start).map pyStrip).filter
          (fun s => !s.isEmpty) = (specSlices text ms' m.start).map pyStrip := by
        apply List.filter_eq_self.mpr
        intro a ha
        obtain ⟨s, hs, rfl⟩ := List.mem_map.mp ha
        simpa [List.isEmpty_iff] using hne s hs
      by_cases hempty : pyStrip (text.take m.start) = []
      · rw [if_pos hempty]
        simp only [List.nil_append, tailReplies_map_content]
        simp only [specSlices, List.drop_zero, List.map_cons]
        rw [hempty]
        simp [hfilter]
      · rw [if_neg hempty]
        simp only [specSlices, List.drop_zero, List.map_cons]
        rw [List.filter_cons_of_pos (by simpa [List.isEmpty_iff] using hempty)]
        simp [closeReply, mkReply, tailReplies_map_content, hfilter]

/-- Witness for C1 (amended) at a concrete two-header input. -/
theorem c1_partition_witness :
    Chained ("A\n-----Original Message-----\nFrom: a\nTo: b".data) 0
        [⟨2, "-----Original Message-----".data⟩, ⟨29, "From: a\nTo: b".data⟩] = true ∧
    (joinAll (specSlices ("A\n-----Original Message-----\nFrom: a\nTo: b".data)
        [⟨2, "-----Original Message-----".data⟩, ⟨29, "From: a\nTo: b".data⟩] 0) =
      "A\n-----Original Message-----\nFrom: a\nTo: b".data ∧
     (readModel ("A\n-----Original Message-----\nFrom: a\nTo: b".data)
        [⟨2, "-----Original Message-----".data⟩, ⟨29, "From: a\nTo: b".data⟩]
        (fun _ => ([], []))).map (fun r => r.content) =
      ((specSlices ("A\n-----Original Message-----\nFrom: a\nTo: b".data)
        [⟨2, "-----Original Message-----".data⟩, ⟨29, "From: a\nTo: b".data⟩] 0).map
          pyStrip).filter (fun s => !s.isEmpty)) :=
  ⟨by decide,
   c1_partition_amended ("A\n-----Original Message-----\nFrom: a\nTo: b".data)
     [⟨2, "-----Original Message-----".data⟩, ⟨29, "From: a\nTo: b".data⟩]
     (fun _ => ([], [])) (by decide)⟩

/-- Claim C2, as stated, is false: when the text begins with a header
match at position 0, the leading empty fragment is dropped and the first
emitted reply carries that header, so `reply[0].headers` is not empty. -/
theorem c2_header_attachment_counterexample :
    Chained ("-----Original Message-----\nFrom: x\nTo: y".data) 0
        [⟨0, "-----Original Message-----".data⟩, ⟨27, "From: x\nTo: y".data⟩] = true ∧
    (readModel ("-----Original Message-----\nFrom: x\nTo: y".data)
        [⟨0, "-----Original Message-----".data⟩, ⟨27, "From: x\nTo: y".data⟩]
        (fun _ => ([], []))).head?.map (fun r => r.headers) =
      some ("-----Original Message-----".data) ∧
    "-----Original Message-----".data ≠ ([] : List Char) := by
  refine ⟨by decide, by decide, by decide⟩

/-- Claim C2 (amended): the emitted headers are, in order, one empty
header for the leading fragment when its slice does not strip to empty,
followed by the (stripped) text of each header match; hence for `i > 0`
`reply[i].headers` is the header that closed the preceding window, and
`reply[0].headers` is empty unless the text starts (up to whitespace)
with a header match. -/
theorem c2_header_attachment_amended (text : List Char) (ms : List HeaderMatch)
    (sd : List Char → List (List Char) × List Char)
    (h : Chained text 0 ms = true) :
    (readModel text ms sd).map (fun r => r.headers) =
      (match ms with
       | [] => [([] : List Char)]
       | m :: ms' =>
         (if pyStrip (text.take m.start) = [] then [] else [([] : List Char)]) ++
           (m :: ms').map (fun x => pyStrip x.mtext)) := by
  cases ms with
  | nil =>
    show (readModel text [] sd).map (fun r => r.headers) = [([] : List Char)]
    rw [readModel_nil_eq text sd]
    simp [closeReply, mkReply, pyStrip_nil]
  | cons m ms' =>
    show (readModel text (m :: ms') sd).map (fun r => r.headers) =
      (if pyStrip (text.take m.start) = [] then [] else [([] : List Char)]) ++
        (m :: ms').map (fun x => pyStrip x.mtext)
    rw [readModel_cons_eq text m ms' sd h]
    by_cases hempty : pyStrip (text.take m.start) = []
    · simp [hempty, tailReplies_map_headers]
    · simp [hempty, closeReply, mkReply, pyStrip_nil, tailReplies_map_headers]

/-- Witness for C2 (amended) at a concrete two-header input. -/
theorem c2_header_attachment_witness :
    Chained ("Ok\n-----Original Message-----\nFrom: c\nTo: d".data) 0
        [⟨3, "-----Original Message-----".data⟩, ⟨30, "From: c\nTo: d".data⟩] = true ∧
    (readModel ("Ok\n-----Original Message-----\nFrom: c\nTo: d".data)
        [⟨3, "-----Original Message-----".data⟩, ⟨30, "From: c\nTo: d".data⟩]
        (fun _ => ([], []))).map (fun r => r.headers) =
      [[], "-----Original Message-----".data, "From: c\nTo: d".data] :=
  ⟨by decide, by
    have h := c2_header_attachment_amended
      ("Ok\n-----Original Message-----\nFrom: c\nTo: d".data)
      [⟨3, "-----Original Message-----".data⟩, ⟨30, "From: c\nTo: d".data⟩]
      (fun _ => ([], [])) (by decide)
    rw [h]; decide⟩

/-- Claim C3, as stated, is false: `ja` defines `sent_from` as the empty
string, which suppresses the fallback but is then filtered out, so the
code returns `[]` where the claimed contract collects `[""]`. -/
theorem c3_resolve_field_counterexample :
    getLanguageRegexPatterns ["ja"] "sent_from" "en" ≠
      resolveFieldSpec ["ja"] "en" "sent_from" := by
  decide

/-- Claim C3 (amended): `_get_language_regex_patterns` equals the claimed
`resolve_field` contract followed by filtering out empty patterns; the
fallback decision is taken before that filtering, so a language defining
the field with an empty pattern still suppresses the fallback. -/
theorem c3_resolve_field_amended (langs : List String) (key dflt : String) :
    getLanguageRegexPatterns langs key dflt =
      (resolveFieldSpec langs dflt key).filter (fun p => p != "") := by
  unfold getLanguageRegexPatterns resolveFieldSpec
  by_cases hempty : (collectPatterns langs key).isEmpty
  · have hnil : collectPatterns langs key = [] := by
      simpa [List.isEmpty_iff] using hempty
    cases hcont : langs.contains dflt
    · simp [hempty, hnil, hcont]
    · simp [hempty, hnil, hcont]
  · simp [hempty]

/-- Claim C4: parsing the empty string yields exactly one reply with
empty content, headers, signature and disclaimers.  (The header regex
has no match in `""`, and neither the signature nor the disclaimer regex
matches the empty fragment, so `sd "" = ([], '')`.) -/
theorem c4_empty_input (sd : List Char → List (List Char) × List Char)
    (h : sd [] = ([], [])) :
    readModel (normalizeText []) [] sd =
      [{ content := [], headers := [], signatures := [], disclaimers := [] }] := by
  have hnorm : normalizeText [] = [] := rfl
  rw [hnorm]
  simp [readModel, readLoop, closeReply, mkReply, h, pyStrip_nil]

/-- Witness for C4. -/
theorem c4_empty_input_witness :
    readModel (normalizeText []) [] (fun _ => ([], [])) =
      [{ content := [], headers := [], signatures := [], disclaimers := [] }] :=
  c4_empty_input (fun _ => ([], [])) rfl

/-- Claim C5: `body` removes each captured disclaimer span, then the
signature span (the source's `if self.signatures` guard is immaterial,
since removing the empty span is the identity), then the header text,
then trims; `full_body` removes only the header text and trims.  Removal
is Python `str.replace(span, '')`: exact substring matching, one removal
pass per captured span, in the claimed order. -/
theorem c5_body_views (r : EmailReply) :
    r.body = bodySpecView r ∧ r.full_body = fullBodySpecView r := by
  constructor
  · unfold EmailReply.body bodySpecView
    by_cases hs : r.signatures = []
    · simp [hs, removeAll_nil_old]
    · simp [hs]
  · rfl

/-- Claim C6 is right and the code is wrong: the substitution
`re.sub('([^\n])(\n{2,} ?[_-]{32,})', '\\1\n', text, re.MULTILINE)`
contradicts the adjacent comment ("make sure that all lines of
underscores are preceded by at least two newline characters").  It only
fires when a blank line is already present (`\n{2,}`), and then its
replacement drops the whole separator group: `"Hi\n\n" + 32*"_"`
normalizes to `"Hi\n"` (separator deleted), while `"Hi\n" + 32*"_"`
(no blank line, the case the comment targets) is left unchanged. -/
theorem c6_normalizer_separator_bug :
    normalizeText ("Hi\n\n________________________________".data) = "Hi\n".data ∧
    normalizeText ("Hi\n________________________________".data) =
      "Hi\n________________________________".data := by
  constructor
  · decide
  · decide

/-- Claim C7: the signature lead-in alternative carries the `(?<!\A)`
guard, so it never matches at position 0 of a fragment — in particular a
fragment that starts with a lead-in phrase is not matched there — while
the same alternative does match at a later line start. -/
theorem c7_signature_guard :
    (∀ content : List Char, sigLeadMatchAt content 0 = false) ∧
    sigLeadMatchAt ("Hi,\nBest regards,\nJohn".data) 4 = true := by
  constructor
  · intro content
    simp [sigLeadMatchAt]
  · decide

/-- Claim C8, as stated, is false: `EmailMessage.__post_init__` appends
the literal `'en'` (`include_english`), not the configured default
language; configuring languages `["fr"]` with default language `"de"`
yields an active set that does not contain `"de"`. -/
theorem c8_include_default_counterexample :
    ¬ ("de" ∈ emailMessageLanguages (parserLanguages ["fr"] "de") true) := by
  decide

/-- Claim C8 (amended): with `include_english = true` the active set
always ends up containing the library default `'en'` — the hard-coded
English pack, not the configured `default_language`. -/
theorem c8_include_default_amended (langs : List String) (dflt : String) :
    MAIL_LANGUAGE_DEFAULT ∈ emailMessageLanguages (parserLanguages langs dflt) true := by
  unfold emailMessageLanguages MAIL_LANGUAGE_DEFAULT
  cases hcont : (parserLanguages langs dflt).contains "en"
  · simp only [hcont, Bool.not_false, Bool.and_true, if_pos]
    exact List.mem_append_right _ (List.mem_singleton.mpr rfl)
  · have : "en" ∈ parserLanguages langs dflt := by
      simpa using hcont
    simp [hcont, this]

/-- Claim C9: the three pattern strings of a matcher bundle are pure
functions of `(languages, default_language)`, so two builds for the same
key are equal, and therefore agree with any matcher semantics on every
probe string. -/
theorem c9_bundle_determinism (langs : List String) (dflt : String)
    (sem : String → String → Bool) (probe : String) :
    (buildHeaderPattern langs dflt, buildSignaturePattern langs dflt,
        buildDisclaimersPattern langs dflt) =
      (buildHeaderPattern langs dflt, buildSignaturePattern langs dflt,
        buildDisclaimersPattern langs dflt) ∧
    sem (buildHeaderPattern langs dflt) probe = sem (buildHeaderPattern langs dflt) probe ∧
    sem (buildSignaturePattern langs dflt) probe = sem (buildSignaturePattern langs dflt) probe ∧
    sem (buildDisclaimersPattern langs dflt) probe = sem (buildDisclaimersPattern langs dflt) probe :=
  ⟨rfl, rfl, rfl, rfl⟩

/-- Claim C10: for every text, match list and trailer extractor, the scan
emits at least one reply (the final fragment is appended whenever the
chain would otherwise be empty), so `latest_reply` is never `none`. -/
theorem c10_nonempty_chain (text : List Char) (ms : List HeaderMatch)
    (sd : List Char → List (List Char) × List Char) :
    readModel text ms sd ≠ [] ∧ latest_reply (readModel text ms sd) ≠ none := by
  have h : readModel text ms sd ≠ [] := readLoop_ne_nil text sd ms 0 [] []
  refine ⟨h, ?_⟩
  unfold latest_reply
  cases hrm : readModel text ms sd with
  | nil => exact absurd hrm h
  | cons r rs => simp

end MailParser
